import Mathlib

/-!
Verification of the cloudigrade usage-accounting engine against its
natural-language specification.

The repository's `account/reports.py` module (the usage accounting engine)
is not among the provided source files; only its tests
(`account/tests/test_reports_aws.py`), the data models (`account/models.py`)
and test helpers are.  The engine is therefore modelled here from the
specification (sections 4.1-4.5), and the model is checked against the
concrete expectations recorded in the repository's own tests.

Timestamps are modelled as natural numbers of seconds since the UTC epoch,
so a calendar day (UTC) is an aligned block of 86400 seconds, exactly as the
spec's calendar-day bucketing requires.
-/

deriving instance DecidableEq for Except

namespace Cloudigrade

/-- Number of seconds in a UTC calendar day. -/
def SECONDS_PER_DAY : Nat := 86400

/-- Event type, from `account/models.py` `InstanceEvent.TYPE`:
`power_on` or `power_off`. -/
inductive EventType
  | power_on
  | power_off
deriving DecidableEq

/-- A machine image, from `account/models.py` `MachineImage`: identified by
an opaque id and carrying tag membership.  Tag membership is modelled by the
two derived properties `rhel` and `openshift` exactly as `models.py` exposes
them. -/
structure Image where
  imageId : Nat
  rhel : Bool
  openshift : Bool
deriving DecidableEq

/-- The recognized tags (spec section 3: semantic labels on an Image;
the repository recognizes the `rhel` and `openshift` tags). -/
inductive Tag
  | rhel
  | openshift
deriving DecidableEq

/-- Whether an image carries a tag, per the `rhel`/`openshift` properties of
`MachineImage` in `account/models.py`. -/
def Image.hasTag (img : Image) : Tag → Bool
  | Tag.rhel => img.rhel
  | Tag.openshift => img.openshift

/-- An instance power-state event, from `account/models.py` `InstanceEvent`:
a type, an `occurred_at` timestamp, and the image in use when it occurred. -/
structure Event where
  event_type : EventType
  occurred_at : Nat
  image : Image
deriving DecidableEq

/-- A reporting window: the half-open interval `[start, stop)`
(spec section 3, "Reporting Window"). -/
structure Window where
  start : Nat
  stop : Nat
deriving DecidableEq

/-- A compute instance together with its chronologically ordered event
history (the Event Store Adapter is modelled as this immutable list). -/
structure Instance where
  instanceId : Nat
  events : List Event
deriving DecidableEq

/-- Modelled from the spec (4.1 Event Validator); the `reports.validate_event`
function is missing from the provided sources.  A power-on event is always
valid; a power-off event is valid only if it occurs at or after
`window_start`. -/
def validate_event (e : Event) (window_start : Nat) : Bool :=
  match e.event_type with
  | EventType.power_on => true
  | EventType.power_off => decide (window_start ≤ e.occurred_at)

/-- Events of one instance whose `occurred_at` falls inside `[start, stop)`
(the Event Store Adapter's `events_in_range`, spec section 6). -/
def eventsInRange (events : List Event) (w : Window) : List Event :=
  events.filter (fun e => decide (w.start ≤ e.occurred_at) && decide (e.occurred_at < w.stop))

/-- The single latest event strictly before a timestamp (the Event Store
Adapter's `latest_event_before`, spec section 6).  The event list is the
instance's chronologically ascending history, so the last matching entry is
the latest one. -/
def latestEventBefore (events : List Event) (t : Nat) : Option Event :=
  (events.filter (fun e => decide (e.occurred_at < t))).getLast?

/-- Modelled from the spec (4.2 Relevant Event Selector); the
`reports._get_relevant_events` function is missing from the provided
sources.  The selector assembles, per instance, the ordered event list for a
window: the single latest event strictly before `window.start` (the
carry-over event) followed by the events inside the window, filtered through
the Event Validator so that an invalid leading power-off (one strictly
before `window.start`) is dropped.  When no event falls inside the window
this reduces exactly to the spec's carry-over rule: a prior power-on means
the instance entered the window already running, a prior power-off or no
prior event contributes nothing. -/
def selectRelevant (events : List Event) (w : Window) : List Event :=
  let prior : List Event :=
    match latestEventBefore events w.start with
    | some e => [e]
    | none => []
  (prior ++ eventsInRange events w).filter (fun e => validate_event e w.start)

/-- A clipped running interval `[istart, istop)` bound to the image active
during the span (spec section 4.3 / glossary "Interval"). -/
structure Interval where
  istart : Nat
  istop : Nat
  image : Image
deriving DecidableEq

/-- The walk state of the interval reconstructor (spec 4.3): either not
running, or running an image since `open_at`. -/
inductive WalkState
  | off
  | running (image : Image) (open_at : Nat)
deriving DecidableEq

/-- Emit the interval `[a, b)` for an image; zero-length intervals are inert
for all accounting (spec 4.3/8) and are omitted from the output. -/
def emitInterval (a b : Nat) (img : Image) : List Interval :=
  if a < b then [⟨a, b, img⟩] else []

/-- Modelled from the spec (4.3 Interval Reconstructor, single step); the
corresponding logic of `reports.py` is missing from the provided sources.
A power-on while not running opens at `max occurred_at window.start`;
a power-on while already running is ignored (redundant) and does not change
the tracked image; a power-off while running closes the interval at
`min occurred_at window.stop`; a power-off while not running is ignored. -/
def stepEvent (w : Window) (st : WalkState) (e : Event) : WalkState × List Interval :=
  match st, e.event_type with
  | WalkState.off, EventType.power_on =>
      (WalkState.running e.image (max e.occurred_at w.start), [])
  | WalkState.off, EventType.power_off =>
      (WalkState.off, [])
  | WalkState.running img oa, EventType.power_on =>
      (WalkState.running img oa, [])
  | WalkState.running img oa, EventType.power_off =>
      (WalkState.off, emitInterval oa (min e.occurred_at w.stop) img)

/-- Walk the selected events in order, threading the state and collecting
the emitted intervals; if still running after all events, emit a final
interval ending at `window.stop` (spec 4.3). -/
def walkEvents (w : Window) (st : WalkState) : List Event → List Interval
  | [] =>
      match st with
      | WalkState.off => []
      | WalkState.running img oa => emitInterval oa w.stop img
  | e :: rest =>
      let out := stepEvent w st e
      out.2 ++ walkEvents w out.1 rest

/-- Modelled from the spec (4.3, contract `intervals(events, window)`):
reconstruct the ordered clipped running intervals from an ordered event
list. -/
def intervals (events : List Event) (w : Window) : List Interval :=
  walkEvents w WalkState.off events

/-- The running intervals of one instance for a window: select the relevant
events (4.2) and reconstruct intervals from them (4.3). -/
def instanceIntervals (events : List Event) (w : Window) : List Interval :=
  intervals (selectRelevant events w) w

/-- Seconds of an interval clipped to the UTC calendar day with index `d`
(the day covering `[d * 86400, (d+1) * 86400)`); truncated subtraction
yields 0 when they do not overlap. -/
def clipToDay (iv : Interval) (d : Nat) : Nat :=
  min iv.istop ((d + 1) * SECONDS_PER_DAY) - max iv.istart (d * SECONDS_PER_DAY)

/-- Length of an interval in seconds. -/
def intervalSeconds (iv : Interval) : Nat := iv.istop - iv.istart

/-- Total seconds of a list of intervals. -/
def totalSeconds (ivs : List Interval) : Nat := (ivs.map intervalSeconds).sum

/-- Seconds one instance contributes to a tag on a day: the sum, over its
intervals whose image carries the tag, of the seconds clipped to that day
(spec 4.4). -/
def instanceDayTagSeconds (events : List Event) (w : Window) (d : Nat) (t : Tag) : Nat :=
  (((instanceIntervals events w).filter (fun iv => iv.image.hasTag t)).map
    (fun iv => clipToDay iv d)).sum

/-- Whether an instance has a positive-duration overlap with a day through
an interval whose image carries the tag (spec 4.4 day-presence). -/
def instancePresentOnDay (events : List Event) (w : Window) (d : Nat) (t : Tag) : Bool :=
  (instanceIntervals events w).any
    (fun iv => iv.image.hasTag t && decide (0 < clipToDay iv d))

/-- Day-bucket runtime: running seconds for a tag on a day are summed across
all instances (never deduplicated across instances, spec 4.4). -/
def dayRuntime (insts : List Instance) (w : Window) (d : Nat) (t : Tag) : Nat :=
  (insts.map (fun i => instanceDayTagSeconds i.events w d t)).sum

/-- Day-bucket instance count: the number of distinct instances with a
positive-duration overlap that day through an image carrying the tag -
once per (instance, day, tag), not once per interval (spec 4.4). -/
def dayInstances (insts : List Instance) (w : Window) (d : Nat) (t : Tag) : Nat :=
  insts.countP (fun i => instancePresentOnDay i.events w d t)

/-- Window-level total: the number of distinct instances with any
positive-duration tag-carrying interval in the window, each instance counted
at most once across the whole window (spec 4.4). -/
def instancesSeenWithTag (insts : List Instance) (w : Window) (t : Tag) : Nat :=
  insts.countP (fun i => (instanceIntervals i.events w).any (fun iv => iv.image.hasTag t))

/-- One day's aggregate record (spec 4.4). -/
structure DayUsage where
  day : Nat
  runtime_seconds : Tag → Nat
  instances_with_tag : Tag → Nat

/-- The daily usage report (spec 4.4 contract). -/
structure DailyUsageReport where
  daily_usage : List DayUsage
  instances_seen_with_rhel : Nat
  instances_seen_with_openshift : Nat

/-- Engine error conditions (spec section 7). -/
inductive ReportError
  | invalidWindow
deriving DecidableEq

/-- The UTC day indices of the calendar days fully or partially inside
`[start, stop)` (spec 4.4), assuming a valid window (`start < stop`). -/
def windowDays (w : Window) : List Nat :=
  let d0 := w.start / SECONDS_PER_DAY
  let d1 := (w.stop - 1) / SECONDS_PER_DAY
  (List.range (d1 + 1 - d0)).map (fun k => d0 + k)

/-- Modelled from the spec (4.4 Daily Usage Aggregator and section 7); the
`reports.get_daily_usage` function is missing from the provided sources.
Fails fast with `invalidWindow` when `start >= end`; otherwise produces one
record per calendar day of the window plus the window-level per-tag
distinct-instance totals, over all of the user's instances. -/
def get_daily_usage (insts : List Instance) (w : Window) :
    Except ReportError DailyUsageReport :=
  if w.stop ≤ w.start then Except.error ReportError.invalidWindow
  else Except.ok
    { daily_usage := (windowDays w).map (fun d =>
        { day := d
          runtime_seconds := fun t => dayRuntime insts w d t
          instances_with_tag := fun t => dayInstances insts w d t })
      instances_seen_with_rhel := instancesSeenWithTag insts w Tag.rhel
      instances_seen_with_openshift := instancesSeenWithTag insts w Tag.openshift }

/-- The empty daily usage report. -/
def emptyUsage : DailyUsageReport :=
  { daily_usage := []
    instances_seen_with_rhel := 0
    instances_seen_with_openshift := 0 }

/-- Extract the report from a successful computation (empty on error). -/
def usageOk (r : Except ReportError DailyUsageReport) : DailyUsageReport :=
  match r with
  | Except.ok u => u
  | Except.error _ => emptyUsage

/-- Runtime seconds for a tag on the k-th day of a report (0 if out of
range). -/
def dayRuntimeAt (r : DailyUsageReport) (k : Nat) (t : Tag) : Nat :=
  match r.daily_usage.get? k with
  | some du => du.runtime_seconds t
  | none => 0

/-- Instance count for a tag on the k-th day of a report (0 if out of
range). -/
def dayInstancesAt (r : DailyUsageReport) (k : Nat) (t : Tag) : Nat :=
  match r.daily_usage.get? k with
  | some du => du.instances_with_tag t
  | none => 0

/-- Total runtime seconds for a tag summed over all days of a report. -/
def totalRuntime (r : DailyUsageReport) (t : Tag) : Nat :=
  (r.daily_usage.map (fun du => du.runtime_seconds t)).sum

/-- A customer account, from `account/models.py` `Account`/`AwsAccount`:
identity attributes, an immutable creation timestamp, and its instances. -/
structure Account where
  id : Nat
  cloud_account_id : Nat
  user_id : Nat
  cloud_type : String
  account_arn : String
  created_at : Nat
  name : String
  instances : List Instance
deriving DecidableEq

/-- The account overview result (spec 4.5): the account's identity fields
plus the countable fields, which are `none` ("unknown") under the
creation-date gate. -/
structure AccountOverview where
  id : Nat
  cloud_account_id : Nat
  user_id : Nat
  cloud_type : String
  arn : String
  creation_date : Nat
  name : String
  images : Option Nat
  instances : Option Nat
  rhel_instances : Option Nat
  openshift_instances : Option Nat
deriving DecidableEq

/-- Build an overview carrying the account's identity fields and the given
countable fields. -/
def mkOverview (acct : Account) (images instances rhel ocp : Option Nat) : AccountOverview :=
  { id := acct.id
    cloud_account_id := acct.cloud_account_id
    user_id := acct.user_id
    cloud_type := acct.cloud_type
    arn := acct.account_arn
    creation_date := acct.created_at
    name := acct.name
    images := images
    instances := instances
    rhel_instances := rhel
    openshift_instances := ocp }

/-- The instances of an account contributing to the overview: those with at
least one relevant event or carried-over running state (spec 4.5). -/
def contributingInstances (acct : Account) (w : Window) : List Instance :=
  acct.instances.filter (fun i => !(selectRelevant i.events w).isEmpty)

/-- Count of distinct images referenced by any contributing instance's
relevant events (spec 4.5). -/
def overviewImages (acct : Account) (w : Window) : Nat :=
  (((contributingInstances acct w).map
    (fun i => (selectRelevant i.events w).map (fun e => e.image))).flatten).dedup.length

/-- Count of distinct contributing instances (spec 4.5). -/
def overviewInstances (acct : Account) (w : Window) : Nat :=
  (contributingInstances acct w).length

/-- Count of distinct contributing instances whose most-recently-referenced
image within the relevant-event set carries the tag (spec 4.5). -/
def overviewTagInstances (acct : Account) (w : Window) (t : Tag) : Nat :=
  (contributingInstances acct w).countP (fun i =>
    match (selectRelevant i.events w).getLast? with
    | some e => e.image.hasTag t
    | none => false)

/-- Modelled from the spec (4.5 Account Overview Aggregator and section 7);
the `reports.get_account_overview` function is missing from the provided
sources.  Fails fast with `invalidWindow` when `start >= end`; reports every
countable field as `none` when the account's creation timestamp is at or
after `window.end`; otherwise reports the concrete counts. -/
def get_account_overview (acct : Account) (w : Window) :
    Except ReportError AccountOverview :=
  if w.stop ≤ w.start then Except.error ReportError.invalidWindow
  else if w.stop ≤ acct.created_at then
    Except.ok (mkOverview acct none none none none)
  else
    Except.ok (mkOverview acct
      (some (overviewImages acct w))
      (some (overviewInstances acct w))
      (some (overviewTagInstances acct w Tag.rhel))
      (some (overviewTagInstances acct w Tag.openshift)))

/-! Concrete scenario data used by the claims, mirroring the repository's
tests: the reporting window is the month of January 2018 (UTC), i.e.
`[2018-01-01T00:00:00Z, 2018-02-01T00:00:00Z)` in epoch seconds. -/

/-- The January 2018 reporting window in epoch seconds
(2018-01-01T00:00:00Z = 1514764800, 2018-02-01T00:00:00Z = 1517443200). -/
def janWindow : Window := ⟨1514764800, 1517443200⟩

/-- A RHEL-tagged image (like the tests' `image_rhel`). -/
def imgRhel : Image := ⟨1, true, false⟩

/-- An instance powered on 2017-01-01T00:00:00Z (= 1483228800, before the
window) and never powered off (test `test_usage_on_before_off_never`). -/
def c1Instance : Instance := ⟨1, [⟨EventType.power_on, 1483228800, imgRhel⟩]⟩

/-- An instance whose only events are a power-on and power-off in January
2017, entirely before the window (test `test_events_only_in_past`). -/
def c1PastInstance : Instance :=
  ⟨2, [⟨EventType.power_on, 1483920000, imgRhel⟩,
       ⟨EventType.power_off, 1484006400, imgRhel⟩]⟩

/-- Instance A: powered on 2018-01-10T00:00:00Z (= 1515542400), off five
hours later (test `test_usage_on_times_overlapping`). -/
def c3InstA : Instance :=
  ⟨1, [⟨EventType.power_on, 1515542400, imgRhel⟩,
       ⟨EventType.power_off, 1515560400, imgRhel⟩]⟩

/-- Instance B: powered on 2018-01-10T02:30:00Z (= 1515551400), off five
hours later at 07:30 (test `test_usage_on_times_overlapping`). -/
def c3InstB : Instance :=
  ⟨2, [⟨EventType.power_on, 1515551400, imgRhel⟩,
       ⟨EventType.power_off, 1515569400, imgRhel⟩]⟩

/-- An instance powered on at the window start and off 2018-01-06T05:00:00Z
(= 1515214800), running continuously across six calendar days
(test `test_usage_on_over_multiple_days_then_off`). -/
def c4Instance : Instance :=
  ⟨1, [⟨EventType.power_on, 1514764800, imgRhel⟩,
       ⟨EventType.power_off, 1515214800, imgRhel⟩]⟩

/-- The daily usage report for the six-day continuous run scenario. -/
def c4Report : DailyUsageReport := usageOk (get_daily_usage [c4Instance] janWindow)

/-- An account created exactly at the window end (2018-02-01T00:00:00Z),
with an instance that has an event inside the window
(test `test_get_cloud_account_overview_account_creation_on`). -/
def c5Account : Account :=
  ⟨7, 123, 5, "aws", "arn:aws:iam::123:role/r", 1517443200, "acct-on-end",
   [⟨1, [⟨EventType.power_on, 1515542400, imgRhel⟩]⟩]⟩

/-- An account created 2017-01-01, well before the window end. -/
def c5AccountOld : Account :=
  ⟨8, 124, 5, "aws", "arn:aws:iam::124:role/r", 1483228800, "acct-old",
   [⟨1, [⟨EventType.power_on, 1515542400, imgRhel⟩]⟩]⟩

/-- An account created 2017-01-01 whose two instances have no events
(test `test_get_cloud_account_overview_no_events`). -/
def c10Account : Account :=
  ⟨9, 125, 5, "aws", "arn:aws:iam::125:role/r", 1483228800, "acct-no-events",
   [⟨1, []⟩, ⟨2, []⟩]⟩

/-! Helper lemmas. -/

/-- The latest event strictly before `t` indeed occurred strictly before
`t`. -/
theorem latestEventBefore_lt {events : List Event} {t : Nat} {e : Event}
    (h : latestEventBefore events t = some e) : e.occurred_at < t := by
  have hm : e ∈ events.filter (fun e => decide (e.occurred_at < t)) :=
    List.mem_of_mem_getLast? h
  have := (List.mem_filter.mp hm).2
  simpa using this

/-- Every interval produced by the event walk lies inside the window and has
positive length, provided the initial state (if running) opened at or after
the window start. -/
theorem walkEvents_invariant (w : Window) :
    ∀ (events : List Event) (st : WalkState),
      (∀ img oa, st = WalkState.running img oa → w.start ≤ oa) →
      ∀ iv ∈ walkEvents w st events,
        w.start ≤ iv.istart ∧ iv.istart < iv.istop ∧ iv.istop ≤ w.stop := by
  intro events
  induction events with
  | nil =>
      intro st hst iv hiv
      match st with
      | WalkState.off => simp [walkEvents] at hiv
      | WalkState.running img oa =>
          simp only [walkEvents, emitInterval] at hiv
          by_cases h : oa < w.stop
          · rw [if_pos h] at hiv
            simp at hiv
            subst hiv
            exact ⟨hst img oa rfl, h, le_refl _⟩
          · rw [if_neg h] at hiv
            simp at hiv
  | cons e rest ih =>
      intro st hst iv hiv
      simp only [walkEvents] at hiv
      rcases List.mem_append.mp hiv with hout | hrec
      · -- emitted by this step: only the running/power_off case emits
        match hste : st, hety : e.event_type with
        | WalkState.off, EventType.power_on =>
            simp [stepEvent, hety] at hout
        | WalkState.off, EventType.power_off =>
            simp [stepEvent, hety] at hout
        | WalkState.running img oa, EventType.power_on =>
            simp [stepEvent, hety] at hout
        | WalkState.running img oa, EventType.power_off =>
            simp only [stepEvent, hety, emitInterval] at hout
            by_cases h : oa < min e.occurred_at w.stop
            · rw [if_pos h] at hout
              simp at hout
              subst hout
              exact ⟨hst img oa rfl, h, by simp [min_le_right]⟩
            · rw [if_neg h] at hout
              simp at hout
      · -- produced by the recursive walk on the new state
        refine ih (stepEvent w st e).1 ?_ iv hrec
        intro img oa hrun
        match hste : st, hety : e.event_type with
        | WalkState.off, EventType.power_on =>
            simp only [stepEvent, hety] at hrun
            injection hrun with h1 h2
            subst h2
            exact le_max_right _ _
        | WalkState.off, EventType.power_off =>
            simp [stepEvent, hety] at hrun
        | WalkState.running img0 oa0, EventType.power_on =>
            simp only [stepEvent, hety] at hrun
            injection hrun with h1 h2
            subst h2
            exact hst img0 oa0 rfl
        | WalkState.running img0 oa0, EventType.power_off =>
            simp [stepEvent, hety] at hrun

/-- A power-on event is always valid, and any event at or after the window
start is valid. -/
theorem validate_event_of_start_le {e : Event} {s : Nat} (h : s ≤ e.occurred_at) :
    validate_event e s = true := by
  rcases e with ⟨ty, occ, img⟩
  cases ty
  · rfl
  · simp [validate_event]
    exact h

/-- The relevant events of an empty history are empty. -/
theorem selectRelevant_nil (w : Window) : selectRelevant [] w = [] := rfl

/-! Claim theorems. -/

/-- C2: `validate_event` returns true for every power-on event regardless of
its timestamp, true for a power-off at or after `window_start`, and false
exactly when the event is a power-off strictly before `window_start`. -/
theorem validate_event_spec (e : Event) (s : Nat) :
    (e.event_type = EventType.power_on → validate_event e s = true) ∧
    (e.event_type = EventType.power_off → s ≤ e.occurred_at →
      validate_event e s = true) ∧
    (validate_event e s = false ↔
      (e.event_type = EventType.power_off ∧ e.occurred_at < s)) := by
  rcases e with ⟨ty, occ, img⟩
  cases ty
  · simp [validate_event]
  · simp [validate_event]

/-- Witness for C2 at concrete inputs: a power-on at 3 and a power-off at 12
are valid for window start 10, while a power-off at 3 is not. -/
theorem validate_event_spec_witness :
    validate_event ⟨EventType.power_on, 3, imgRhel⟩ 10 = true ∧
    validate_event ⟨EventType.power_off, 12, imgRhel⟩ 10 = true ∧
    validate_event ⟨EventType.power_off, 3, imgRhel⟩ 10 = false :=
  ⟨(validate_event_spec ⟨EventType.power_on, 3, imgRhel⟩ 10).1 rfl,
   (validate_event_spec ⟨EventType.power_off, 12, imgRhel⟩ 10).2.1 rfl (by decide),
   (validate_event_spec ⟨EventType.power_off, 3, imgRhel⟩ 10).2.2.mpr ⟨rfl, by decide⟩⟩

/-- C9: for every window with `start >= end`, both the daily usage
computation and the account overview computation fail fast with the
`invalidWindow` condition instead of returning any report. -/
theorem invalid_window_fail_fast (insts : List Instance) (acct : Account)
    (w : Window) (h : w.stop ≤ w.start) :
    get_daily_usage insts w = Except.error ReportError.invalidWindow ∧
    get_account_overview acct w = Except.error ReportError.invalidWindow := by
  constructor
  · unfold get_daily_usage
    rw [if_pos h]
  · unfold get_account_overview
    rw [if_pos h]

/-- Witness for C9: the degenerate window `[5, 5)` is rejected by both
entry points. -/
theorem invalid_window_fail_fast_witness :
    get_daily_usage [c1Instance] ⟨5, 5⟩ = Except.error ReportError.invalidWindow ∧
    get_account_overview ⟨7, 123, 5, "aws", "a", 0, "n", []⟩ ⟨5, 5⟩
      = Except.error ReportError.invalidWindow :=
  invalid_window_fail_fast [c1Instance] ⟨7, 123, 5, "aws", "a", 0, "n", []⟩ ⟨5, 5⟩ (by decide)

/-- C6: for every event list and window `[s, e)`, every interval produced by
the interval reconstructor satisfies `s <= istart < istop <= e` (zero-length
intervals are omitted from the output); the same holds for the intervals of
an instance after relevant-event selection. -/
theorem clipping_invariant (events : List Event) (w : Window) :
    (∀ iv ∈ intervals events w,
      w.start ≤ iv.istart ∧ iv.istart < iv.istop ∧ iv.istop ≤ w.stop) ∧
    (∀ iv ∈ instanceIntervals events w,
      w.start ≤ iv.istart ∧ iv.istart < iv.istop ∧ iv.istop ≤ w.stop) := by
  constructor
  · exact walkEvents_invariant w events WalkState.off (by intro img oa h; cases h)
  · exact walkEvents_invariant w (selectRelevant events w) WalkState.off
      (by intro img oa h; cases h)

/-- Witness for C6: the interval reconstructed from a lone power-on at 12 in
window `[10, 20)` is `[12, 20)`, which satisfies the clipping bounds. -/
theorem clipping_invariant_witness :
    (10 : Nat) ≤ (Interval.mk 12 20 imgRhel).istart ∧
    (Interval.mk 12 20 imgRhel).istart < (Interval.mk 12 20 imgRhel).istop ∧
    (Interval.mk 12 20 imgRhel).istop ≤ (20 : Nat) :=
  (clipping_invariant [⟨EventType.power_on, 12, imgRhel⟩] ⟨10, 20⟩).1
    ⟨12, 20, imgRhel⟩ (by decide)

/-- C1: for an instance with no events inside the window, a latest prior
power-on yields one interval covering the entire window (and a January 2018
window yields exactly 2,678,400 runtime seconds for its image's tag), while
a latest prior power-off, or no prior event at all, contributes nothing. -/
theorem carry_over_semantics (events : List Event) (w : Window)
    (hin : eventsInRange events w = []) :
    (∀ e : Event, latestEventBefore events w.start = some e →
        e.event_type = EventType.power_on → w.start < w.stop →
        instanceIntervals events w = [⟨w.start, w.stop, e.image⟩]) ∧
    (∀ e : Event, latestEventBefore events w.start = some e →
        e.event_type = EventType.power_off →
        instanceIntervals events w = []) ∧
    (latestEventBefore events w.start = none → instanceIntervals events w = []) ∧
    totalRuntime (usageOk (get_daily_usage [c1Instance] janWindow)) Tag.rhel = 2678400 ∧
    totalRuntime (usageOk (get_daily_usage [c1PastInstance] janWindow)) Tag.rhel = 0 := by
  refine ⟨?_, ?_, ?_, by decide, by decide⟩
  · intro e hlast hty hws
    have hocc : e.occurred_at < w.start := latestEventBefore_lt hlast
    simp only [instanceIntervals, selectRelevant]
    rw [hlast, hin]
    simp only [List.append_nil, List.filter_cons, List.filter_nil,
      validate_event_of_start_le, intervals, walkEvents, stepEvent, hty,
      validate_event]
    rw [max_eq_right (le_of_lt hocc)]
    simp [emitInterval, hws]
  · intro e hlast hty
    have hocc : e.occurred_at < w.start := latestEventBefore_lt hlast
    simp only [instanceIntervals, selectRelevant]
    rw [hlast, hin]
    have hinvalid : validate_event e w.start = false := by
      simp [validate_event, hty]
      omega
    simp [List.filter_cons, hinvalid, intervals, walkEvents]
  · intro hnone
    simp only [instanceIntervals, selectRelevant]
    rw [hnone, hin]
    rfl

/-- Witness for C1: an instance whose only event is a power-on at 3, before
the window `[10, 20)`, is reconstructed as running for the whole window. -/
theorem carry_over_semantics_witness :
    instanceIntervals [⟨EventType.power_on, 3, imgRhel⟩] ⟨10, 20⟩
      = [⟨10, 20, imgRhel⟩] :=
  (carry_over_semantics [⟨EventType.power_on, 3, imgRhel⟩] ⟨10, 20⟩ (by decide)).1
    ⟨EventType.power_on, 3, imgRhel⟩ (by decide) rfl (by decide)

/-- C5: for every account and valid window, if the account's creation
timestamp is at or after `window.end` (including exactly equal), the
overview reports every countable field as null regardless of any events
present; otherwise every countable field is a concrete non-null count. -/
theorem overview_null_gate (acct : Account) (w : Window) (hw : w.start < w.stop) :
    (w.stop ≤ acct.created_at →
      get_account_overview acct w = Except.ok (mkOverview acct none none none none)) ∧
    (acct.created_at < w.stop →
      get_account_overview acct w = Except.ok (mkOverview acct
        (some (overviewImages acct w))
        (some (overviewInstances acct w))
        (some (overviewTagInstances acct w Tag.rhel))
        (some (overviewTagInstances acct w Tag.openshift)))) := by
  have hnot : ¬ w.stop ≤ w.start := Nat.not_le.mpr hw
  constructor
  · intro h
    unfold get_account_overview
    rw [if_neg hnot, if_pos h]
  · intro h
    unfold get_account_overview
    rw [if_neg hnot, if_neg (Nat.not_le.mpr h)]

/-- Witness for C5: an account created exactly at the window end reports all
countable fields as null even though it has an event inside the window; an
account created before the window end reports concrete counts. -/
theorem overview_null_gate_witness :
    get_account_overview c5Account janWindow
      = Except.ok (mkOverview c5Account none none none none) ∧
    get_account_overview c5AccountOld janWindow
      = Except.ok (mkOverview c5AccountOld
          (some (overviewImages c5AccountOld janWindow))
          (some (overviewInstances c5AccountOld janWindow))
          (some (overviewTagInstances c5AccountOld janWindow Tag.rhel))
          (some (overviewTagInstances c5AccountOld janWindow Tag.openshift))) :=
  ⟨(overview_null_gate c5Account janWindow (by decide)).1 (by decide),
   (overview_null_gate c5AccountOld janWindow (by decide)).2 (by decide)⟩

/-- C10: for every account and valid window the overview always carries the
account's identity fields unchanged - by the window, by the events present,
and by the creation-date null gate - and when the account's instances have
no events at all (and the gate passes) the countable fields are 0, not
null. -/
theorem overview_identity_frame (acct : Account) (w : Window) (hw : w.start < w.stop) :
    (∃ ov : AccountOverview, get_account_overview acct w = Except.ok ov ∧
      ov.id = acct.id ∧ ov.cloud_account_id = acct.cloud_account_id ∧
      ov.user_id = acct.user_id ∧ ov.cloud_type = acct.cloud_type ∧
      ov.arn = acct.account_arn ∧ ov.creation_date = acct.created_at ∧
      ov.name = acct.name) ∧
    ((∀ i ∈ acct.instances, i.events = []) → acct.created_at < w.stop →
      get_account_overview acct w
        = Except.ok (mkOverview acct (some 0) (some 0) (some 0) (some 0))) := by
  have hnot : ¬ w.stop ≤ w.start := Nat.not_le.mpr hw
  constructor
  · by_cases h : w.stop ≤ acct.created_at
    · refine ⟨mkOverview acct none none none none, ?_, rfl, rfl, rfl, rfl, rfl, rfl, rfl⟩
      unfold get_account_overview
      rw [if_neg hnot, if_pos h]
    · refine ⟨mkOverview acct (some (overviewImages acct w))
        (some (overviewInstances acct w))
        (some (overviewTagInstances acct w Tag.rhel))
        (some (overviewTagInstances acct w Tag.openshift)),
        ?_, rfl, rfl, rfl, rfl, rfl, rfl, rfl⟩
      unfold get_account_overview
      rw [if_neg hnot, if_neg h]
  · intro hempty h
    have hcontrib : contributingInstances acct w = [] := by
      unfold contributingInstances
      rw [List.filter_eq_nil_iff]
      intro i hi
      rw [hempty i hi]
      simp [selectRelevant_nil]
    have h1 : overviewImages acct w = 0 := by
      unfold overviewImages
      rw [hcontrib]
      rfl
    have h2 : overviewInstances acct w = 0 := by
      unfold overviewInstances
      rw [hcontrib]
      rfl
    have h3 : overviewTagInstances acct w Tag.rhel = 0 := by
      unfold overviewTagInstances
      rw [hcontrib]
      rfl
    have h4 : overviewTagInstances acct w Tag.openshift = 0 := by
      unfold overviewTagInstances
      rw [hcontrib]
      rfl
    unfold get_account_overview
    rw [if_neg hnot, if_neg (Nat.not_le.mpr h), h1, h2, h3, h4]

/-- Witness for C10: an account whose two instances have no events reports
all countable fields as 0 (not null) for January 2018. -/
theorem overview_identity_frame_witness :
    get_account_overview c10Account janWindow
      = Except.ok (mkOverview c10Account (some 0) (some 0) (some 0) (some 0)) :=
  (overview_identity_frame c10Account janWindow (by decide)).2 (by decide) (by decide)

/-- C3: daily runtime seconds for a tag are summed across instances with no
cross-instance deduplication, while the per-day instance count counts each
distinct instance once; concretely, instance A on 00:00-05:00 and instance
B on 02:30-07:30 of 2018-01-10, both RHEL-tagged, give 36000 RHEL seconds
(sums, not union) and a RHEL instance count of 2 for that day. -/
theorem no_cross_instance_dedup (i1 i2 : Instance) (rest : List Instance)
    (w : Window) (d : Nat) (t : Tag) :
    dayRuntime (i1 :: i2 :: rest) w d t
      = instanceDayTagSeconds i1.events w d t + instanceDayTagSeconds i2.events w d t
        + dayRuntime rest w d t ∧
    dayInstances (i1 :: i2 :: rest) w d t
      = dayInstances [i1] w d t + dayInstances [i2] w d t + dayInstances rest w d t ∧
    dayRuntimeAt (usageOk (get_daily_usage [c3InstA, c3InstB] janWindow)) 9 Tag.rhel
      = 36000 ∧
    dayInstancesAt (usageOk (get_daily_usage [c3InstA, c3InstB] janWindow)) 9 Tag.rhel
      = 2 := by
  refine ⟨?_, ?_, by decide, by decide⟩
  · simp [dayRuntime, add_assoc]
  · simp only [dayInstances, List.countP_cons, List.countP_nil]
    omega

/-- C4: the per-day instance counter counts each instance at most once per
(instance, day, tag) no matter how many intervals it has, the window-level
seen-with-tag total counts each instance at most once, and an instance
running continuously across six calendar days contributes exactly 1 to each
of those six days' counts (and 0 to the next day, and 1 to the window
total). -/
theorem per_day_instance_dedup (i : Instance) (rest : List Instance) (w : Window)
    (d : Nat) (t : Tag) :
    dayInstances [i] w d t ≤ 1 ∧
    instancesSeenWithTag [i] w t ≤ 1 ∧
    dayInstances (i :: rest) w d t ≤ 1 + dayInstances rest w d t ∧
    instancesSeenWithTag (i :: rest) w t ≤ 1 + instancesSeenWithTag rest w t ∧
    (∀ k : Nat, k < 6 → dayInstancesAt c4Report k Tag.rhel = 1) ∧
    dayInstancesAt c4Report 6 Tag.rhel = 0 ∧
    c4Report.instances_seen_with_rhel = 1 := by
  refine ⟨?_, ?_, ?_, ?_, by decide, by decide, by decide⟩
  · simpa [dayInstances] using
      List.countP_le_length (fun j => instancePresentOnDay j.events w d t) (l := [i])
  · simpa [instancesSeenWithTag] using
      List.countP_le_length
        (fun j => (instanceIntervals j.events w).any (fun iv => iv.image.hasTag t))
        (l := [i])
  · simp only [dayInstances, List.countP_cons]
    split <;> omega
  · simp only [instancesSeenWithTag, List.countP_cons]
    split <;> omega

/-- Witness for C4: on the fourth day of the six-day continuous run the
instance is counted exactly once. -/
theorem per_day_instance_dedup_witness :
    dayInstancesAt c4Report 3 Tag.rhel = 1 :=
  (per_day_instance_dedup c4Instance [] janWindow 0 Tag.rhel).2.2.2.2.1 3 (by decide)

/-- C8: inconsistent event orderings produce a defined, deterministic result
and never an error: a redundant power-on while already running is ignored
(it opens no new interval and does not change the tracked image), so
on-at-t0, redundant-on-at-t1, off-at-t2 yields exactly the single interval
`[t0, t2)` with the first image and running time `t2 - t0`; a power-off
while not running is likewise ignored. -/
theorem redundant_events_defined (w : Window) (img1 img2 img3 : Image)
    (t0 t1 t2 : Nat) (h0 : w.start ≤ t0) (h1 : t0 < t2) (h2 : t2 ≤ w.stop) :
    intervals [⟨EventType.power_on, t0, img1⟩, ⟨EventType.power_on, t1, img2⟩,
               ⟨EventType.power_off, t2, img3⟩] w
      = intervals [⟨EventType.power_on, t0, img1⟩,
                   ⟨EventType.power_off, t2, img3⟩] w ∧
    intervals [⟨EventType.power_on, t0, img1⟩, ⟨EventType.power_on, t1, img2⟩,
               ⟨EventType.power_off, t2, img3⟩] w = [⟨t0, t2, img1⟩] ∧
    totalSeconds (intervals [⟨EventType.power_on, t0, img1⟩,
        ⟨EventType.power_on, t1, img2⟩, ⟨EventType.power_off, t2, img3⟩] w)
      = t2 - t0 ∧
    intervals [⟨EventType.power_off, t1, img2⟩] w = [] := by
  have hmax : max t0 w.start = t0 := max_eq_left h0
  have hmin : min t2 w.stop = t2 := min_eq_left h2
  have hmain : intervals [⟨EventType.power_on, t0, img1⟩,
      ⟨EventType.power_on, t1, img2⟩, ⟨EventType.power_off, t2, img3⟩] w
      = [⟨t0, t2, img1⟩] := by
    simp only [intervals, walkEvents, stepEvent, hmax, hmin, emitInterval,
      if_pos h1]
    rfl
  refine ⟨?_, hmain, ?_, rfl⟩
  · rw [hmain]
    simp only [intervals, walkEvents, stepEvent, hmax, hmin, emitInterval,
      if_pos h1]
    rfl
  · rw [hmain]
    simp [totalSeconds, intervalSeconds]

/-- C7: a power-on exactly at `window.start` and a power-on strictly before
`window.start` with no intervening power-off yield identical intervals and
hence identical running time inside the window: both open the interval at
`window.start` (per `open_at = max(occurred_at, window.start)`). -/
theorem boundary_symmetry (w : Window) (img : Image) (t0 : Nat) (rest : List Event)
    (hw : w.start < w.stop) (ht0 : t0 < w.start)
    (hrest : ∀ e ∈ rest, w.start ≤ e.occurred_at ∧ e.occurred_at < w.stop) :
    instanceIntervals (⟨EventType.power_on, t0, img⟩ :: rest) w
      = instanceIntervals (⟨EventType.power_on, w.start, img⟩ :: rest) w ∧
    totalSeconds (instanceIntervals (⟨EventType.power_on, t0, img⟩ :: rest) w)
      = totalSeconds (instanceIntervals (⟨EventType.power_on, w.start, img⟩ :: rest) w) := by
  have hfrest : rest.filter (fun e => decide (e.occurred_at < w.start)) = [] := by
    rw [List.filter_eq_nil_iff]
    intro e he
    have h := (hrest e he).1
    simp only [decide_eq_true_eq]
    omega
  have hrestall : rest.filter
      (fun e => decide (w.start ≤ e.occurred_at) && decide (e.occurred_at < w.stop))
      = rest := by
    rw [List.filter_eq_self]
    intro e he
    have h := hrest e he
    simp only [Bool.and_eq_true, decide_eq_true_eq]
    exact h
  have hvalid : ∀ e ∈ rest, validate_event e w.start = true := fun e he =>
    validate_event_of_start_le (hrest e he).1
  have hlatestX : latestEventBefore (⟨EventType.power_on, t0, img⟩ :: rest) w.start
      = some ⟨EventType.power_on, t0, img⟩ := by
    unfold latestEventBefore
    rw [List.filter_cons, if_pos (by simpa using ht0), hfrest]
    rfl
  have hrangeX : eventsInRange (⟨EventType.power_on, t0, img⟩ :: rest) w = rest := by
    unfold eventsInRange
    rw [List.filter_cons, if_neg (by simp only [Bool.and_eq_true, decide_eq_true_eq]; omega),
      hrestall]
  have hselX : selectRelevant (⟨EventType.power_on, t0, img⟩ :: rest) w
      = ⟨EventType.power_on, t0, img⟩ :: rest := by
    have hv0 : validate_event ⟨EventType.power_on, t0, img⟩ w.start = true := rfl
    simp only [selectRelevant, hlatestX, hrangeX]
    rw [List.singleton_append, List.filter_cons, if_pos hv0,
      List.filter_eq_self.mpr hvalid]
  have hlatestY : latestEventBefore (⟨EventType.power_on, w.start, img⟩ :: rest) w.start
      = none := by
    unfold latestEventBefore
    rw [List.filter_cons, if_neg (by simp), hfrest]
    rfl
  have hrangeY : eventsInRange (⟨EventType.power_on, w.start, img⟩ :: rest) w
      = ⟨EventType.power_on, w.start, img⟩ :: rest := by
    unfold eventsInRange
    rw [List.filter_cons, if_pos (by simpa using hw), hrestall]
  have hselY : selectRelevant (⟨EventType.power_on, w.start, img⟩ :: rest) w
      = ⟨EventType.power_on, w.start, img⟩ :: rest := by
    have hv1 : validate_event ⟨EventType.power_on, w.start, img⟩ w.start = true := rfl
    simp only [selectRelevant, hlatestY, hrangeY]
    rw [List.nil_append, List.filter_cons, if_pos hv1,
      List.filter_eq_self.mpr hvalid]
  have hwalk : instanceIntervals (⟨EventType.power_on, t0, img⟩ :: rest) w
      = instanceIntervals (⟨EventType.power_on, w.start, img⟩ :: rest) w := by
    simp only [instanceIntervals, hselX, hselY, intervals, walkEvents, stepEvent]
    rw [max_eq_right (le_of_lt ht0), max_self]
  exact ⟨hwalk, by rw [hwalk]⟩

/-- Witness for C7: with window `[10, 20)` and a power-off at 15, a prior
power-on at 5 and a power-on exactly at 10 yield the same intervals. -/
theorem boundary_symmetry_witness :
    instanceIntervals [⟨EventType.power_on, 5, imgRhel⟩,
        ⟨EventType.power_off, 15, imgRhel⟩] ⟨10, 20⟩
      = instanceIntervals [⟨EventType.power_on, 10, imgRhel⟩,
        ⟨EventType.power_off, 15, imgRhel⟩] ⟨10, 20⟩ :=
  (boundary_symmetry ⟨10, 20⟩ imgRhel 5 [⟨EventType.power_off, 15, imgRhel⟩]
    (by decide) (by decide) (by decide)).1

/-- Witness for C8: with window `[10, 100)`, on at 20, redundant on at 30,
off at 50: the redundant power-on is ignored and the running time is 30
seconds. -/
theorem redundant_events_defined_witness :
    totalSeconds (intervals [⟨EventType.power_on, 20, imgRhel⟩,
        ⟨EventType.power_on, 30, imgRhel⟩, ⟨EventType.power_off, 50, imgRhel⟩]
        ⟨10, 100⟩) = 30 :=
  (redundant_events_defined ⟨10, 100⟩ imgRhel imgRhel imgRhel 20 30 50
    (by decide) (by decide) (by decide)).2.2.1

end Cloudigrade

